import Mathlib

/-!
Verification of the YouTube-MP3 gateway (`src/main.py`).

The development shallowly embeds the pure logic of the two request
handlers (`/ymp3`, `/ytmp3`), the URL-identifier extractor, the cache
filename derivation and the cache endpoint.  Network effects are
parameters: an `Except String _` models either a transport error
(`httpx.HTTPError`, the error message) or the parsed JSON response,
and the sequence of poll responses is a function from poll index to
such a response.  Strings are handled at the `List Char` level.
-/

set_option autoImplicit false

namespace YMP3

/-! ## URL identifier extractor (`extract_youtube_id`, main.py lines 58-87) -/

/-- Character class `[a-zA-Z0-9_-]` used by every capture group. -/
def idChar (c : Char) : Bool :=
  c.isAlphanum || c == '_' || c == '-'

/-- What may follow the 11-character capture group in a pattern:
nothing (`any`), `(?:\?|$)` (`qmarkOrEnd`), or a literal `&` (`amp`). -/
inductive Suf where
  | any
  | qmarkOrEnd
  | amp
deriving DecidableEq

/-- A simple pattern: a literal part, then eleven `idChar`s, then a suffix
condition. -/
structure SPat where
  lit : List Char
  suf : Suf
deriving DecidableEq

def sufOk : Suf → List Char → Bool
  | .any, _ => true
  | .qmarkOrEnd, [] => true
  | .qmarkOrEnd, c :: rest => c == '?' || (c == '\n' && rest.isEmpty)
  | .amp, [] => false
  | .amp, c :: _ => c == '&'

/-- Try a simple pattern at the start of `s`; on success return the capture
group (the eleven identifier characters after the literal). -/
def matchAt (p : SPat) (s : List Char) : Option (List Char) :=
  if p.lit.isPrefixOf s then
    let rest := s.drop p.lit.length
    let cand := rest.take 11
    if cand.length == 11 && cand.all idChar && sufOk p.suf (rest.drop 11) then
      some cand
    else none
  else none

/-- `re.search` for a simple pattern: leftmost position at which the whole
pattern matches. -/
def searchSimple (p : SPat) : List Char → Option (List Char)
  | [] => matchAt p []
  | c :: t =>
    match matchAt p (c :: t) with
    | some r => some r
    | none => searchSimple p t

/-- Try `v=` followed by eleven `idChar`s at the start of `t`. -/
def vMatchAt (t : List Char) : Option (List Char) :=
  match t with
  | 'v' :: '=' :: rest =>
    let cand := rest.take 11
    if cand.length == 11 && cand.all idChar then some cand else none
  | _ => none

/-- All captures of `v=ID` occurrences reachable from the current position
without first crossing a newline (`.` does not match `\n`), listed left to
right.  The greedy `.*` of pattern 10 selects the last of these. -/
def vScan : List Char → List (List Char)
  | [] => []
  | c :: rest =>
    (match vMatchAt (c :: rest) with
     | some cap => [cap]
     | none => []) ++
    (if c == '\n' then [] else vScan rest)

def watchLit : List Char := "youtube.com/watch?".data

/-- `re.search` for pattern 10, `youtube\.com\/watch\?.*v=([a-zA-Z0-9_-]{11})`:
scan for the leftmost occurrence of the literal from which some `v=ID` is
reachable; the greedy `.*` picks the last reachable occurrence. -/
def searchDotV : List Char → Option (List Char)
  | [] => none
  | c :: t =>
    if watchLit.isPrefixOf (c :: t) then
      match (vScan ((c :: t).drop watchLit.length)).getLast? with
      | some cap => some cap
      | none => searchDotV t
    else searchDotV t

inductive Pat where
  | simple (p : SPat)
  | dotV
deriving DecidableEq

def searchPat : Pat → List Char → Option (List Char)
  | .simple p, s => searchSimple p s
  | .dotV, s => searchDotV s

/-- The ten patterns of `extract_youtube_id`, in source order. -/
def patterns : List Pat :=
  [ .simple ⟨"youtu.be/".data, .any⟩,
    .simple ⟨"youtube.com/watch?v=".data, .any⟩,
    .simple ⟨"youtube.com/v/".data, .any⟩,
    .simple ⟨"youtube.com/embed/".data, .any⟩,
    .simple ⟨"youtube.com/shorts/".data, .any⟩,
    .simple ⟨"www.youtube.com/watch?v=".data, .any⟩,
    .simple ⟨"m.youtube.com/watch?v=".data, .any⟩,
    .simple ⟨"youtu.be/".data, .qmarkOrEnd⟩,
    .simple ⟨"youtube.com/watch?v=".data, .amp⟩,
    .dotV ]

/-- The `for pattern in patterns` loop: first pattern whose search succeeds. -/
def tryPats : List Pat → List Char → Option (List Char)
  | [], _ => none
  | p :: ps, s =>
    match searchPat p s with
    | some r => some r
    | none => tryPats ps s

/-- `extract_youtube_id` (main.py lines 58-87). -/
def extract_youtube_id (link : String) : Option String :=
  (tryPats patterns link.data).map String.mk

/-! ## Cache filename derivation (main.py line 260) -/

/-- Characters kept by `re.sub(r'[^\w\d\-_.]', '_', ...)`: word characters
(letters, digits, underscore) plus hyphen and period. -/
def keepChar (c : Char) : Bool :=
  c.isAlphanum || c == '_' || c == '-' || c == '.'

def subChar (c : Char) : Char :=
  if keepChar c then c else '_'

/-- Python `str.replace('__', '_')`: left-to-right, non-overlapping. -/
def replaceDunder : List Char → List Char
  | '_' :: '_' :: rest => '_' :: replaceDunder rest
  | c :: rest => c :: replaceDunder rest
  | [] => []

/-- The sanitized title: substitute disallowed characters, then collapse
doubled underscores once. -/
def sanitizeTitle (t : List Char) : List Char :=
  replaceDunder (t.map subChar)

/-- The fixed audio extension appended to every cache filename. -/
def mp3Ext : List Char := ['.', 'm', 'p', '3']

/-- `f"{re.sub(...).replace('__','_')[:200]}.mp3"`. -/
def deriveFilename (t : List Char) : List Char :=
  (sanitizeTitle t).take 200 ++ mp3Ext

def deriveFilenameS (title : String) : String :=
  String.mk (deriveFilename title.data)

/-! ## Response bodies -/

def authorName : String := "Somby Ny Aina"

/-- Parsed JSON of the `savenow.to` submission response: the fields the
handler reads (`title`, `info.title`, `info.image`, `progress_url`). -/
structure FetchData where
  title : Option String := none
  info_title : Option String := none
  info_image : Option String := none
  progress_url : Option String := none
deriving DecidableEq

/-- Parsed JSON of one poll response: `success`, `progress`, `download_url`. -/
structure ProgData where
  success : Bool := false
  progress : Option Int := none
  download_url : Option String := none
deriving DecidableEq

/-- Parsed JSON of the `flvto.top` converter response. -/
structure ConvResp where
  status : Option String := none
  link : Option String := none
  title : Option String := none
  filesize : Option String := none
  duration : Option String := none
deriving DecidableEq

/-- The `DownloadResponse` pydantic model (main.py lines 39-51). -/
structure DownloadResponse where
  message : String
  title : Option String := none
  download : Option String := none
  music : Option String := none
  thumbnail : Option String := none
  filesize : Option String := none
  duration : Option String := none
  videoId : Option String := none
  waited : Option Nat := none
  bitrate : Option String := none
  source : Option String := none
  author : String := authorName
deriving DecidableEq

/-- A JSON error `detail` dict.  Every field other than `message` is
optional: `none` models absence of the key in the dict literal. -/
structure ErrBody where
  message : String
  error : Option String := none
  author : Option String := none
  usage : Option String := none
  examples : Option (List String) := none
  supported_formats : Option (List String) := none
  your_link : Option String := none
  response_fetch : Option FetchData := none
  response_conv : Option ConvResp := none
  videoId : Option String := none
deriving DecidableEq

/-- An HTTP outcome of a handler: a success body, or an
`HTTPException(status_code, detail)`. -/
inductive HttpOut where
  | ok (r : DownloadResponse)
  | err (status : Nat) (body : ErrBody)
deriving DecidableEq

/-- Python truthiness of an optional string (absent and `""` are falsy). -/
def pyTruthyOpt (o : Option String) : Bool :=
  match o with
  | none => false
  | some s => !(s == "")

/-! ## `/ymp3` handler (`download_mp3_from_savenow`, main.py lines 89-180) -/

/-- The three joint readiness conditions of the poll loop
(main.py lines 146-148). -/
def readyCond (p : ProgData) : Bool :=
  p.success && decide (1000 ≤ p.progress.getD 0) && pyTruthyOpt p.download_url

/-- Classification of one poll response.  `Failed` is the state the spec
names for an upstream-reported failure; the code below never produces it. -/
inductive PollState where
  | Pending
  | Ready
  | Failed
deriving DecidableEq

def classify (p : ProgData) : PollState :=
  if readyCond p then .Ready else .Pending

/-- Outcome of the poll loop. -/
inductive LoopOut where
  | ready (url : String) (waited : Nat)
  | timeout
  | terr (e : String)
deriving DecidableEq

/-- The `while not download_url and wait_count < max_attempts` loop
(main.py lines 142-153): `wc` is `wait_count`, `fuel` is
`max_attempts - wait_count`.  A transport error while polling escapes to
the `except httpx.HTTPError` handler. -/
def pollLoopE (polls : Nat → Except String ProgData) : Nat → Nat → LoopOut
  | _, 0 => .timeout
  | wc, fuel + 1 =>
    match polls wc with
    | .error e => .terr e
    | .ok p =>
      if readyCond p then .ready (p.download_url.getD "") wc
      else pollLoopE polls (wc + 1) fuel

/-- Number of poll fetches the loop performs, under the same fuel
discipline. -/
def pollCount (polls : Nat → Except String ProgData) : Nat → Nat → Nat
  | _, 0 => 0
  | wc, fuel + 1 =>
    match polls wc with
    | .error _ => 1
    | .ok p =>
      if readyCond p then 1 else 1 + pollCount polls (wc + 1) fuel

def maxAttempts : Nat := 30

/-- `full_link = video_link or (f"https://www.youtube.com/watch?v={video_id}"
if video_id else None)` (main.py line 97). -/
def fullLink (video_id video_link : Option String) : Option String :=
  if pyTruthyOpt video_link then video_link
  else if pyTruthyOpt video_id then
    some ("https://www.youtube.com/watch?v=" ++ video_id.getD "")
  else none

/-- `title or info.get("title", "")` (main.py line 166). -/
def pyTitle (d : FetchData) : String :=
  match d.title with
  | some s => if s == "" then d.info_title.getD "" else s
  | none => d.info_title.getD ""

def missingYmp3Body : ErrBody :=
  { message := "Missing video link or id",
    usage := some "/ymp3?link=https://youtube.com/watch?v=...",
    author := some authorName }

def startFailBody (d : FetchData) : ErrBody :=
  { message := "Failed to start conversion",
    response_fetch := some d,
    author := some authorName }

def timeoutBody : ErrBody :=
  { message := "Conversion timeout - please try again",
    author := some authorName }

def fetchErrBody (e : String) : ErrBody :=
  { message := "Internal error while fetching MP3",
    error := some e,
    author := some authorName }

/-- The `/ymp3` handler.  `fetch` is the submission response (or transport
error), `polls i` the response of the `i`-th poll fetch (0-based). -/
def ymp3Model (video_id video_link : Option String)
    (fetch : Except String FetchData)
    (polls : Nat → Except String ProgData) : HttpOut :=
  if pyTruthyOpt (fullLink video_id video_link) then
    match fetch with
    | .error e => .err 500 (fetchErrBody e)
    | .ok d =>
      if pyTruthyOpt d.progress_url then
        match pollLoopE polls 0 maxAttempts with
        | .terr e => .err 500 (fetchErrBody e)
        | .timeout => .err 500 timeoutBody
        | .ready url wc =>
          .ok { message := "MP3 link ready 🎶",
                title := some (pyTitle d),
                thumbnail := d.info_image,
                download := some url,
                waited := some wc }
      else .err 500 (startFailBody d)
  else .err 400 missingYmp3Body

/-! ## `/ytmp3` handler (`download_mp3_from_flvto`, main.py lines 182-302) -/

/-- Lookup by filename in the flat cache directory, modelled as an
association list from filename to file content. -/
def cacheLookup : List (String × String) → String → Option String
  | [], _ => none
  | (k, v) :: rest, key => if k == key then some v else cacheLookup rest key

def missingYtmp3Body : ErrBody :=
  { message := "Missing \"link\" query parameter",
    usage := some "/ytmp3?link=https://youtu.be/abcd1234",
    examples := some
      [ "/ytmp3?link=https://youtu.be/ZIlALB1fQVE",
        "/ytmp3?link=https://www.youtube.com/watch?v=ZIlALB1fQVE",
        "/ytmp3?link=https://youtube.com/watch?v=ZIlALB1fQVE",
        "/ytmp3?link=https://m.youtube.com/watch?v=ZIlALB1fQVE",
        "/ytmp3?link=https://youtube.com/embed/ZIlALB1fQVE",
        "/ytmp3?link=https://youtube.com/shorts/ZIlALB1fQVE" ],
    author := some authorName }

/-- The 400 body for an unparseable link (main.py lines 211-226).  Note:
the dict literal in the source has no `author` key. -/
def invalidLinkBody (link : String) : ErrBody :=
  { message := "Invalid YouTube link",
    supported_formats := some
      [ "youtu.be/ID",
        "youtube.com/watch?v=ID",
        "www.youtube.com/watch?v=ID",
        "m.youtube.com/watch?v=ID",
        "youtube.com/embed/ID",
        "youtube.com/shorts/ID",
        "youtube.com/v/ID" ],
    your_link := some link }

/-- The 500 body for a non-ok converter response (main.py lines 245-252).
Note: the dict literal in the source has no `author` key. -/
def convFailBody (r : ConvResp) (vid : String) : ErrBody :=
  { message := "Conversion failed",
    response_conv := some r,
    videoId := some vid }

def internalBody (e : String) : ErrBody :=
  { message := "Internal server error",
    error := some e,
    author := some authorName }

/-- Result of one `/ytmp3` request: the HTTP outcome, the cache contents
afterwards, and whether the converter call and the binary download fetch
were issued. -/
structure Ytmp3Out where
  response : HttpOut
  cache : List (String × String)
  convertIssued : Bool
  downloadIssued : Bool
deriving DecidableEq

/-- The `/ytmp3` handler.  `conv` is the converter response (or transport
error), `audio` the binary download (or transport/HTTP-status error),
`cache` the set of already cached files. -/
def ytmp3Model (link : String) (conv : Except String ConvResp)
    (audio : Except String String)
    (cache : List (String × String)) : Ytmp3Out :=
  if link == "" then ⟨.err 400 missingYtmp3Body, cache, false, false⟩
  else
    match extract_youtube_id link with
    | none => ⟨.err 400 (invalidLinkBody link), cache, false, false⟩
    | some vid =>
      match conv with
      | .error e => ⟨.err 500 (internalBody e), cache, true, false⟩
      | .ok r =>
        if r.status == some "ok" && pyTruthyOpt r.link then
          let title := r.title.getD "Unknown Title"
          let fname := deriveFilenameS title
          match cacheLookup cache fname with
          | some _ =>
            ⟨.ok { message := "Served from cache ✅",
                   music := some ("/cache/" ++ fname),
                   title := some title,
                   bitrate := some "mp3",
                   filesize := r.filesize,
                   duration := r.duration,
                   videoId := some vid }, cache, true, false⟩
          | none =>
            match audio with
            | .error e => ⟨.err 500 (internalBody e), cache, true, true⟩
            | .ok bytes =>
              ⟨.ok { message := "YouTube downloaded successfully 🎧",
                     music := some ("/cache/" ++ fname),
                     title := some title,
                     bitrate := some "mp3",
                     filesize := r.filesize,
                     duration := r.duration,
                     videoId := some vid,
                     source := some "flvto.top" },
               (fname, bytes) :: cache, true, true⟩
        else ⟨.err 500 (convFailBody r vid), cache, true, false⟩

/-! ## `/cache/{filename}` handler (`get_cached_file`, main.py lines 304-317) -/

inductive CacheGetOut where
  | file (name : String)
  | notFound (detail : String)
deriving DecidableEq

def getCachedFileModel (filename : String)
    (cache : List (String × String)) : CacheGetOut :=
  match cacheLookup cache filename with
  | some _ => .file filename
  | none => .notFound "File not found"

/-! ## Lemmas about the extractor -/

theorem matchAt_sound {p : SPat} {s r : List Char} (h : matchAt p s = some r) :
    r.length = 11 ∧ r.all idChar = true := by
  unfold matchAt at h
  split at h
  · dsimp only at h
    split at h
    · rename_i hc
      cases h
      simp only [Bool.and_eq_true, beq_iff_eq] at hc
      exact ⟨hc.1.1, hc.1.2⟩
    · exact absurd h (by simp)
  · exact absurd h (by simp)

theorem searchSimple_sound {p : SPat} :
    ∀ {s r : List Char}, searchSimple p s = some r →
      r.length = 11 ∧ r.all idChar = true := by
  intro s
  induction s with
  | nil => intro r h; exact matchAt_sound h
  | cons c t ih =>
    intro r h
    unfold searchSimple at h
    split at h
    · rename_i hm; cases h; exact matchAt_sound hm
    · exact ih h

theorem vMatchAt_sound {t r : List Char} (h : vMatchAt t = some r) :
    r.length = 11 ∧ r.all idChar = true := by
  unfold vMatchAt at h
  split at h
  · dsimp only at h
    split at h
    · rename_i hc
      cases h
      simp only [Bool.and_eq_true, beq_iff_eq] at hc
      exact ⟨hc.1, hc.2⟩
    · exact absurd h (by simp)
  · exact absurd h (by simp)

theorem vScan_sound : ∀ {t : List Char} {r : List Char}, r ∈ vScan t →
    r.length = 11 ∧ r.all idChar = true := by
  intro t
  induction t with
  | nil => intro r h; simp [vScan] at h
  | cons c rest ih =>
    intro r h
    unfold vScan at h
    rw [List.mem_append] at h
    rcases h with h | h
    · split at h
      · rename_i hm
        rcases List.mem_singleton.mp h with rfl
        exact vMatchAt_sound hm
      · simp at h
    · split at h
      · simp at h
      · exact ih h

theorem searchDotV_sound :
    ∀ {s r : List Char}, searchDotV s = some r →
      r.length = 11 ∧ r.all idChar = true := by
  intro s
  induction s with
  | nil => intro r h; simp [searchDotV] at h
  | cons c t ih =>
    intro r h
    unfold searchDotV at h
    split at h
    · split at h
      · rename_i hg
        cases h
        have hmem : r ∈ vScan ((c :: t).drop watchLit.length) := by
          rcases List.mem_getLast?_eq_getLast (l := vScan ((c :: t).drop watchLit.length)) hg
            with ⟨hne, heq⟩
          exact heq ▸ List.getLast_mem hne
        exact vScan_sound hmem
      · exact ih h
    · exact ih h

theorem searchPat_sound {p : Pat} {s r : List Char} (h : searchPat p s = some r) :
    r.length = 11 ∧ r.all idChar = true := by
  cases p with
  | simple q => exact searchSimple_sound h
  | dotV => exact searchDotV_sound h

theorem tryPats_eq_none_iff (ps : List Pat) (s : List Char) :
    tryPats ps s = none ↔ ∀ p ∈ ps, searchPat p s = none := by
  induction ps with
  | nil => simp [tryPats]
  | cons p ps ih =>
    unfold tryPats
    cases h : searchPat p s with
    | some r => simp [h]
    | none => simp [h, ih]

theorem tryPats_of_first (l1 : List Pat) (p : Pat) (l2 : List Pat) (s : List Char)
    (h1 : ∀ q ∈ l1, searchPat q s = none) (h2 : (searchPat p s).isSome) :
    tryPats (l1 ++ p :: l2) s = searchPat p s := by
  induction l1 with
  | nil =>
    rcases Option.isSome_iff_exists.mp h2 with ⟨r, hr⟩
    simp [tryPats, hr]
  | cons q l1 ih =>
    have hq : searchPat q s = none := h1 q (List.mem_cons_self q l1)
    simp only [List.cons_append]
    unfold tryPats
    rw [hq]
    exact ih (fun q' hq' => h1 q' (List.mem_cons_of_mem q hq'))

/-- C2: for the recognized URL shapes the extractor returns the embedded
11-character identifier: the scenario input yields `ZIlALB1fQVE`; the result
is `none` exactly when no pattern matches; when some pattern matches, the
result is the capture of the first matching pattern in source order; and
every capture is exactly 11 characters of the identifier class. -/
theorem c2_extract_first_match :
    (extract_youtube_id "https://youtu.be/ZIlALB1fQVE" = some "ZIlALB1fQVE") ∧
    (∀ link : String, extract_youtube_id link = (tryPats patterns link.data).map String.mk) ∧
    (∀ s : List Char, tryPats patterns s = none ↔ ∀ p ∈ patterns, searchPat p s = none) ∧
    (∀ (l1 : List Pat) (p : Pat) (l2 : List Pat) (s : List Char),
      patterns = l1 ++ p :: l2 →
      (∀ q ∈ l1, searchPat q s = none) →
      (searchPat p s).isSome →
      tryPats patterns s = searchPat p s) ∧
    (∀ (p : Pat) (s r : List Char), searchPat p s = some r →
      r.length = 11 ∧ r.all idChar = true) := by
  refine ⟨by decide, fun _ => rfl, tryPats_eq_none_iff patterns, ?_, ?_⟩
  · intro l1 p l2 s hpat h1 h2
    rw [hpat]
    exact tryPats_of_first l1 p l2 s h1 h2
  · intro p s r h
    exact searchPat_sound h

/-- Witness for C2: on the scenario URL the first pattern (`youtu.be/ID`)
matches and the extractor indeed returns its capture. -/
theorem c2_extract_first_match_witness :
    tryPats patterns ("https://youtu.be/ZIlALB1fQVE").data =
      searchPat (Pat.simple ⟨"youtu.be/".data, Suf.any⟩) ("https://youtu.be/ZIlALB1fQVE").data ∧
    extract_youtube_id "https://youtu.be/ZIlALB1fQVE" = some "ZIlALB1fQVE" :=
  ⟨c2_extract_first_match.2.2.2.1 []
      (Pat.simple ⟨"youtu.be/".data, Suf.any⟩)
      [ .simple ⟨"youtube.com/watch?v=".data, .any⟩,
        .simple ⟨"youtube.com/v/".data, .any⟩,
        .simple ⟨"youtube.com/embed/".data, .any⟩,
        .simple ⟨"youtube.com/shorts/".data, .any⟩,
        .simple ⟨"www.youtube.com/watch?v=".data, .any⟩,
        .simple ⟨"m.youtube.com/watch?v=".data, .any⟩,
        .simple ⟨"youtu.be/".data, .qmarkOrEnd⟩,
        .simple ⟨"youtube.com/watch?v=".data, .amp⟩,
        .dotV ]
      ("https://youtu.be/ZIlALB1fQVE").data rfl (by simp) (by decide),
   c2_extract_first_match.1⟩

/-! ## Lemmas about the poll loop -/

theorem pollLoopE_succ (polls : Nat → Except String ProgData) (wc fuel : Nat) :
    pollLoopE polls wc (fuel + 1) =
      match polls wc with
      | .error e => .terr e
      | .ok p =>
        if readyCond p then .ready (p.download_url.getD "") wc
        else pollLoopE polls (wc + 1) fuel := rfl

theorem pollLoopE_timeout_of (polls : Nat → Except String ProgData) :
    ∀ (fuel wc : Nat),
      (∀ i, wc ≤ i → i < wc + fuel → ∃ p, polls i = Except.ok p ∧ readyCond p = false) →
      pollLoopE polls wc fuel = LoopOut.timeout := by
  intro fuel
  induction fuel with
  | zero => intro wc _; rfl
  | succ fuel ih =>
    intro wc h
    rcases h wc le_rfl (by omega) with ⟨p, hp, hr⟩
    unfold pollLoopE
    rw [hp]
    simp only [hr, Bool.false_eq_true, if_false]
    exact ih (wc + 1) (fun i h1 h2 => h i (by omega) (by omega))

theorem pollLoopE_ready_of (polls : Nat → Except String ProgData) :
    ∀ (fuel wc i : Nat) (p : ProgData),
      wc ≤ i → i < wc + fuel →
      (∀ j, wc ≤ j → j < i → ∃ q, polls j = Except.ok q ∧ readyCond q = false) →
      polls i = Except.ok p → readyCond p = true →
      pollLoopE polls wc fuel = LoopOut.ready (p.download_url.getD "") i := by
  intro fuel
  induction fuel with
  | zero => intro wc i p h1 h2 _ _ _; omega
  | succ fuel ih =>
    intro wc i p h1 h2 hall hp hr
    rcases Nat.eq_or_lt_of_le h1 with rfl | hlt
    · unfold pollLoopE
      rw [hp]
      simp [hr]
    · rcases hall wc le_rfl hlt with ⟨q, hq, hqr⟩
      unfold pollLoopE
      rw [hq]
      simp only [hqr, Bool.false_eq_true, if_false]
      exact ih (wc + 1) i p (by omega) (by omega)
        (fun j hj1 hj2 => hall j (by omega) hj2) hp hr

theorem pollLoopE_ready_inv (polls : Nat → Except String ProgData) :
    ∀ (fuel wc : Nat) (url : String) (w : Nat),
      pollLoopE polls wc fuel = LoopOut.ready url w →
      ∃ p, polls w = Except.ok p ∧ readyCond p = true ∧
        url = p.download_url.getD "" ∧ wc ≤ w ∧ w < wc + fuel := by
  intro fuel
  induction fuel with
  | zero => intro wc url w h; exact absurd h (by simp [pollLoopE])
  | succ fuel ih =>
    intro wc url w h
    unfold pollLoopE at h
    cases hp : polls wc with
    | error e => rw [hp] at h; exact absurd h (by simp)
    | ok p =>
      rw [hp] at h
      by_cases hr : readyCond p = true
      · simp only [hr, if_true] at h
        cases h
        exact ⟨p, hp, hr, rfl, le_rfl, by omega⟩
      · simp only [hr, if_false] at h
        rcases ih (wc + 1) url w h with ⟨q, hq, hqr, hurl, hw1, hw2⟩
        exact ⟨q, hq, hqr, hurl, by omega, by omega⟩

theorem pollCount_ready_of (polls : Nat → Except String ProgData) :
    ∀ (fuel wc i : Nat) (p : ProgData),
      wc ≤ i → i < wc + fuel →
      (∀ j, wc ≤ j → j < i → ∃ q, polls j = Except.ok q ∧ readyCond q = false) →
      polls i = Except.ok p → readyCond p = true →
      pollCount polls wc fuel = i - wc + 1 := by
  intro fuel
  induction fuel with
  | zero => intro wc i p h1 h2 _ _ _; omega
  | succ fuel ih =>
    intro wc i p h1 h2 hall hp hr
    rcases Nat.eq_or_lt_of_le h1 with rfl | hlt
    · unfold pollCount
      rw [hp]
      simp [hr]
    · rcases hall wc le_rfl hlt with ⟨q, hq, hqr⟩
      unfold pollCount
      rw [hq]
      simp only [hqr, Bool.false_eq_true, if_false]
      rw [ih (wc + 1) i p (by omega) (by omega)
        (fun j hj1 hj2 => hall j (by omega) hj2) hp hr]
      omega

/-! ## C1: readiness classification -/

/-- C1: a poll response is classified `Ready` iff the success flag is set,
the progress value (default 0) is at least 1000, and the download-link
field is populated; a response failing any condition is classified
`Pending`, and on such a response the loop proceeds to the next poll. -/
theorem c1_ready_classification :
    (∀ p : ProgData, classify p = PollState.Ready ↔
      (p.success = true ∧ 1000 ≤ p.progress.getD 0 ∧ pyTruthyOpt p.download_url = true)) ∧
    (∀ p : ProgData, classify p ≠ PollState.Ready → classify p = PollState.Pending) ∧
    (∀ (polls : Nat → Except String ProgData) (wc fuel : Nat) (p : ProgData),
      polls wc = Except.ok p → classify p = PollState.Pending →
      pollLoopE polls wc (fuel + 1) = pollLoopE polls (wc + 1) fuel) := by
  refine ⟨?_, ?_, ?_⟩
  · intro p
    unfold classify readyCond
    constructor
    · intro h
      by_cases hr : (p.success && decide (1000 ≤ p.progress.getD 0) && pyTruthyOpt p.download_url) = true
      · simp only [Bool.and_eq_true, decide_eq_true_eq] at hr
        exact ⟨hr.1.1, hr.1.2, hr.2⟩
      · rw [if_neg hr] at h; exact absurd h (by simp)
    · intro ⟨h1, h2, h3⟩
      rw [if_pos (by simp [h1, h2, h3])]
  · intro p h
    unfold classify at h ⊢
    by_cases hr : readyCond p = true
    · exact absurd (if_pos hr) h
    · rw [if_neg hr]
  · intro polls wc fuel p hp hpend
    have hr : readyCond p = false := by
      cases hcl : readyCond p with
      | false => rfl
      | true =>
        exfalso
        unfold classify at hpend
        rw [hcl] at hpend
        simp at hpend
    rw [pollLoopE_succ, hp]
    simp [hr]

/-- A poll response reporting explicit upstream failure. -/
def failProg : ProgData := { success := false, progress := some 0, download_url := none }

/-- A ready poll response. -/
def readyProg : ProgData :=
  { success := true, progress := some 1000, download_url := some "http://dl" }

/-- A submission response that enters the poll loop. -/
def sampleFetch : FetchData :=
  { title := some "T", info_image := some "img", progress_url := some "http://p" }

/-- A poll trace in which the upstream keeps reporting failure. -/
def upstreamFailTrace : Nat → Except String ProgData := fun _ => Except.ok failProg

/-- A poll trace that is ready at the very first poll. -/
def readyTrace : Nat → Except String ProgData := fun _ => Except.ok readyProg

/-- Witness for C1: a not-yet-ready first response makes the loop recurse,
and `failProg` is classified `Pending`. -/
theorem c1_ready_classification_witness :
    pollLoopE upstreamFailTrace 0 (3 + 1) = pollLoopE upstreamFailTrace (0 + 1) 3 ∧
    classify failProg = PollState.Pending :=
  ⟨c1_ready_classification.2.2 upstreamFailTrace 0 3 failProg rfl (by decide),
   by decide⟩

/-! ## C3: exhausting the poll budget -/

/-- C3: if every one of the 30 polled responses fails the readiness
conditions, the handler returns the 500 conversion-timeout error; and a
success response is only ever produced when some poll within the budget
was classified `Ready`, with its download link. -/
theorem c3_timeout_on_exhaustion :
    (∀ (vid vlink : Option String) (d : FetchData)
       (polls : Nat → Except String ProgData),
      pyTruthyOpt (fullLink vid vlink) = true →
      pyTruthyOpt d.progress_url = true →
      (∀ i, i < maxAttempts → ∃ p, polls i = Except.ok p ∧ readyCond p = false) →
      ymp3Model vid vlink (Except.ok d) polls = HttpOut.err 500 timeoutBody) ∧
    (∀ (vid vlink : Option String) (fetch : Except String FetchData)
       (polls : Nat → Except String ProgData) (r : DownloadResponse),
      ymp3Model vid vlink fetch polls = HttpOut.ok r →
      ∃ i p, i < maxAttempts ∧ polls i = Except.ok p ∧
        classify p = PollState.Ready ∧ r.download = some (p.download_url.getD "")) := by
  constructor
  · intro vid vlink d polls h1 h2 h3
    unfold ymp3Model
    rw [if_pos h1]
    dsimp only
    rw [if_pos h2, pollLoopE_timeout_of polls maxAttempts 0
      (fun i hi1 hi2 => h3 i (by omega))]
  · intro vid vlink fetch polls r h
    unfold ymp3Model at h
    by_cases h1 : pyTruthyOpt (fullLink vid vlink) = true
    · rw [if_pos h1] at h
      cases fetch with
      | error e => simp at h
      | ok d =>
        dsimp only at h
        by_cases h2 : pyTruthyOpt d.progress_url = true
        · rw [if_pos h2] at h
          cases hl : pollLoopE polls 0 maxAttempts with
          | terr e => rw [hl] at h; simp at h
          | timeout => rw [hl] at h; simp at h
          | ready url wc =>
            rw [hl] at h
            dsimp only at h
            rcases pollLoopE_ready_inv polls maxAttempts 0 url wc hl
              with ⟨p, hp, hr, hurl, _, hwc⟩
            cases h
            refine ⟨wc, p, by omega, hp, ?_, ?_⟩
            · unfold classify
              rw [if_pos hr]
            · rw [hurl]
        · rw [if_neg h2] at h; simp at h
    · rw [if_neg h1] at h; simp at h

/-- Witness for C3: with a persistently failing upstream the handler
times out. -/
theorem c3_timeout_on_exhaustion_witness :
    ymp3Model none (some "L") (Except.ok sampleFetch) upstreamFailTrace =
      HttpOut.err 500 timeoutBody :=
  c3_timeout_on_exhaustion.1 none (some "L") sampleFetch upstreamFailTrace
    (by decide) (by decide)
    (fun i _ => ⟨failProg, rfl, by decide⟩)

/-! ## C4: corrected — the loop never classifies `Failed` -/

/-- C4 counterexample: the poll response that explicitly reports upstream
failure is classified `Pending`, not `Failed`, and a persistently failing
upstream surfaces as exactly the same 500 timeout error as a job that never
finishes — there is no distinct `Failed` error category in the poll loop. -/
theorem c4_no_failed_state_cex :
    classify failProg = PollState.Pending ∧
    classify failProg ≠ PollState.Failed ∧
    ymp3Model none (some "L") (Except.ok sampleFetch) upstreamFailTrace =
      HttpOut.err 500 timeoutBody := by
  refine ⟨by decide, by decide, by decide⟩

/-- C4 amended: the poll loop classifies each response into `Pending` or
`Ready` only (never `Failed`); an upstream-reported failure is treated as
`Pending` and, when persistent, surfaces as the timeout error; the
submission-failure, timeout, and transport-error messages are pairwise
distinct. -/
theorem c4_error_taxonomy :
    (∀ p : ProgData, classify p = PollState.Pending ∨ classify p = PollState.Ready) ∧
    (∀ p : ProgData, classify p ≠ PollState.Failed) ∧
    (∀ d : FetchData, (startFailBody d).message = "Failed to start conversion") ∧
    (∀ (d : FetchData) (e : String),
      (startFailBody d).message ≠ timeoutBody.message ∧
      (startFailBody d).message ≠ (fetchErrBody e).message) ∧
    (∀ e : String, timeoutBody.message ≠ (fetchErrBody e).message) := by
  refine ⟨?_, ?_, fun _ => rfl,
    fun d e => ⟨by simp [startFailBody, timeoutBody],
                by simp [startFailBody, fetchErrBody]⟩,
    fun e => by simp [timeoutBody, fetchErrBody]⟩
  · intro p
    unfold classify
    by_cases hr : readyCond p = true
    · exact Or.inr (if_pos hr)
    · exact Or.inl (if_neg hr)
  · intro p
    unfold classify
    by_cases hr : readyCond p = true
    · rw [if_pos hr]; simp
    · rw [if_neg hr]; simp

/-- Witness for C4 (amended): concrete instances of the classification
range and of the pairwise-distinct error messages. -/
theorem c4_error_taxonomy_witness :
    (classify failProg = PollState.Pending ∨ classify failProg = PollState.Ready) ∧
    classify failProg ≠ PollState.Failed ∧
    (startFailBody sampleFetch).message ≠ timeoutBody.message ∧
    timeoutBody.message ≠ (fetchErrBody "boom").message :=
  ⟨c4_error_taxonomy.1 failProg,
   c4_error_taxonomy.2.1 failProg,
   (c4_error_taxonomy.2.2.2.1 sampleFetch "boom").1,
   c4_error_taxonomy.2.2.2.2 "boom"⟩

/-! ## C9: corrected — `waited` is the number of polls minus one -/

/-- C9 counterexample: a job that is ready on the first poll (`k = 1`)
performs exactly one poll fetch but reports `waited = 0`, so the reported
count is not the number of polls performed. -/
theorem c9_waited_offset_cex :
    ymp3Model none (some "L") (Except.ok sampleFetch) readyTrace =
      HttpOut.ok { message := "MP3 link ready 🎶", title := some "T",
                   thumbnail := some "img", download := some "http://dl",
                   waited := some 0 } ∧
    pollCount readyTrace 0 maxAttempts = 1 ∧ (0 : Nat) ≠ 1 := by
  refine ⟨by decide, by decide, by decide⟩

/-- C9 amended: when the `(i+1)`-th poll (0-based index `i`) is the first
to satisfy the readiness conditions, the success response carries the job
title, the thumbnail from the submission metadata, the upstream download
link unchanged, and `waited = i` — one less than the `i + 1` poll fetches
performed. -/
theorem c9_ready_response :
    ∀ (vid vlink : Option String) (d : FetchData)
      (polls : Nat → Except String ProgData) (i : Nat) (p : ProgData),
      pyTruthyOpt (fullLink vid vlink) = true →
      pyTruthyOpt d.progress_url = true →
      i < maxAttempts →
      (∀ j, j < i → ∃ q, polls j = Except.ok q ∧ readyCond q = false) →
      polls i = Except.ok p → readyCond p = true →
      ymp3Model vid vlink (Except.ok d) polls =
        HttpOut.ok { message := "MP3 link ready 🎶", title := some (pyTitle d),
                     thumbnail := d.info_image,
                     download := some (p.download_url.getD ""),
                     waited := some i } ∧
      pollCount polls 0 maxAttempts = i + 1 := by
  intro vid vlink d polls i p h1 h2 hi hall hp hr
  constructor
  · unfold ymp3Model
    rw [if_pos h1]
    dsimp only
    rw [if_pos h2, pollLoopE_ready_of polls maxAttempts 0 i p (by omega) (by omega)
      (fun j hj1 hj2 => hall j hj2) hp hr]
  · rw [pollCount_ready_of polls maxAttempts 0 i p (by omega) (by omega)
      (fun j hj1 hj2 => hall j hj2) hp hr]
    omega

/-- Witness for C9 (amended): ready on the very first poll. -/
theorem c9_ready_response_witness :
    ymp3Model none (some "L") (Except.ok sampleFetch) readyTrace =
      HttpOut.ok { message := "MP3 link ready 🎶", title := some "T",
                   thumbnail := some "img", download := some "http://dl",
                   waited := some 0 } ∧
    pollCount readyTrace 0 maxAttempts = 0 + 1 := by
  have h := c9_ready_response none (some "L") sampleFetch readyTrace 0 readyProg
    (by decide) (by decide) (by decide) (fun j hj => absurd hj (by omega))
    rfl (by decide)
  exact ⟨by rw [h.1]; rfl, h.2⟩

/-! ## Lemmas about filename derivation -/

theorem replaceDunder_cons_ne (c : Char) (rest : List Char)
    (h : ∀ r, c = '_' → rest = '_' :: r → False) :
    replaceDunder (c :: rest) = c :: replaceDunder rest := by
  conv_lhs => unfold replaceDunder
  split
  · rename_i rest1 heq
    injection heq with h1 h2
    exact absurd h1 (fun h1 => h rest1 h1 h2)
  · rename_i c' rest' heq
    injection heq with h1 h2
    rw [h1, h2]
  · rename_i heq
    exact absurd heq (by simp)

theorem replaceDunder_mem : ∀ {l : List Char} {c : Char},
    c ∈ replaceDunder l → c ∈ l := by
  intro l
  induction l using replaceDunder.induct with
  | case1 rest ih =>
    intro c h
    unfold replaceDunder at h
    rcases List.mem_cons.mp h with rfl | h
    · exact List.mem_cons_self _ _
    · exact List.mem_cons_of_mem _ (List.mem_cons_of_mem _ (ih h))
  | case2 a rest hne ih =>
    intro c h
    rw [replaceDunder_cons_ne a rest (fun r h1 h2 => hne r h1 h2)] at h
    rcases List.mem_cons.mp h with rfl | h
    · exact List.mem_cons_self _ _
    · exact List.mem_cons_of_mem _ (ih h)
  | case3 =>
    intro c h
    simp [replaceDunder] at h

theorem subChar_keep (c : Char) : keepChar (subChar c) = true := by
  unfold subChar
  by_cases h : keepChar c = true
  · rw [if_pos h]; exact h
  · rw [if_neg h]; decide

theorem deriveFilename_keep {t : List Char} {c : Char}
    (h : c ∈ deriveFilename t) : keepChar c = true := by
  unfold deriveFilename sanitizeTitle at h
  rcases List.mem_append.mp h with h | h
  · have h1 : c ∈ replaceDunder (t.map subChar) := List.take_subset 200 _ h
    rcases List.mem_map.mp (replaceDunder_mem h1) with ⟨a, _, rfl⟩
    exact subChar_keep a
  · rcases (by simpa [mp3Ext] using h : c = '.' ∨ c = 'm' ∨ c = 'p' ∨ c = '3')
      with rfl | rfl | rfl | rfl <;> decide

theorem keep_ne_slash {c : Char} (h : keepChar c = true) : c ≠ '/' := by
  intro heq
  rw [heq] at h
  exact absurd h (by decide)

theorem deriveFilename_length (t : List Char) : (deriveFilename t).length ≤ 204 := by
  unfold deriveFilename
  rw [List.length_append, List.length_take]
  have : mp3Ext.length = 4 := rfl
  omega

/-- C5: the cache filename is the deterministic pipeline
substitute-collapse-truncate-append: characters outside the kept class map
to underscore and kept characters stay, a doubled underscore collapses to a
single one, and the filename depends only on the sanitized title, so equal
titles — or distinct titles with equal sanitizations — share one cache
slot. -/
theorem c5_filename_derivation :
    (∀ t : List Char,
      deriveFilename t = (replaceDunder (t.map subChar)).take 200 ++ mp3Ext) ∧
    (∀ c : Char, keepChar c = false → subChar c = '_') ∧
    (∀ c : Char, keepChar c = true → subChar c = c) ∧
    (∀ r : List Char, replaceDunder ('_' :: '_' :: r) = '_' :: replaceDunder r) ∧
    (∀ t1 t2 : List Char,
      sanitizeTitle t1 = sanitizeTitle t2 → deriveFilename t1 = deriveFilename t2) ∧
    (∀ s1 s2 : String, s1.data = s2.data → deriveFilenameS s1 = deriveFilenameS s2) := by
  refine ⟨fun t => rfl, ?_, ?_, fun r => rfl, ?_, ?_⟩
  · intro c h
    unfold subChar
    rw [h]
    rfl
  · intro c h
    unfold subChar
    rw [h]
    rfl
  · intro t1 t2 h
    unfold deriveFilename
    rw [h]
  · intro s1 s2 h
    unfold deriveFilenameS deriveFilename sanitizeTitle
    rw [h]

/-- Witness for C5: a space is replaced by underscore, and the two distinct
titles `"a?"` and `"a!"` sanitize alike and collide on one filename. -/
theorem c5_filename_derivation_witness :
    subChar ' ' = '_' ∧ deriveFilename "a?".data = deriveFilename "a!".data :=
  ⟨c5_filename_derivation.2.1 ' ' (by decide),
   c5_filename_derivation.2.2.2.2.1 "a?".data "a!".data (by decide)⟩

/-! ## C6: cache hit short-circuits the download -/

/-- C6: when the derived filename is already present in the cache — whatever
content it holds — the handler answers `Served from cache ✅` with the
cache-relative reference, performs no binary download fetch, and leaves the
cache exactly as it was. -/
theorem c6_cache_hit_short_circuit :
    ∀ (link : String) (r : ConvResp) (audio : Except String String)
      (cache : List (String × String)) (vid content : String),
      (link == "") = false →
      extract_youtube_id link = some vid →
      r.status = some "ok" →
      pyTruthyOpt r.link = true →
      cacheLookup cache (deriveFilenameS (r.title.getD "Unknown Title")) = some content →
      ytmp3Model link (Except.ok r) audio cache =
        ⟨HttpOut.ok
           { message := "Served from cache ✅",
             music := some ("/cache/" ++ deriveFilenameS (r.title.getD "Unknown Title")),
             title := some (r.title.getD "Unknown Title"),
             bitrate := some "mp3",
             filesize := r.filesize,
             duration := r.duration,
             videoId := some vid },
         cache, true, false⟩ := by
  intro link r audio cache vid content hne hext hstat hlink hcache
  unfold ytmp3Model
  simp only [hne, Bool.false_eq_true, if_false, hext]
  have hok : (r.status == some "ok" && pyTruthyOpt r.link) = true := by
    simp [hstat, hlink]
  simp only [hok, if_true]
  simp only [hcache]

/-- Witness for C6: a concrete cache-hit request. -/
theorem c6_cache_hit_short_circuit_witness :
    ytmp3Model "https://youtu.be/ZIlALB1fQVE"
      (Except.ok { status := some "ok", link := some "http://x", title := some "Song" })
      (Except.ok "bytes") [("Song.mp3", "old")] =
      ⟨HttpOut.ok
         { message := "Served from cache ✅",
           music := some ("/cache/" ++ deriveFilenameS "Song"),
           title := some "Song",
           bitrate := some "mp3",
           filesize := none,
           duration := none,
           videoId := some "ZIlALB1fQVE" },
       [("Song.mp3", "old")], true, false⟩ :=
  c6_cache_hit_short_circuit "https://youtu.be/ZIlALB1fQVE"
    { status := some "ok", link := some "http://x", title := some "Song" }
    (Except.ok "bytes") [("Song.mp3", "old")] "ZIlALB1fQVE" "old"
    (by decide) (by decide) rfl (by decide) (by decide)

/-! ## C7: client errors are raised before any network call -/

/-- C7: an empty (missing) `link` yields a 400 whose body carries usage and
examples, and an unparseable link yields the 400 invalid-link error; in both
cases neither the converter call nor the binary download is issued and the
cache is untouched. -/
theorem c7_client_error_before_network :
    (∀ (conv : Except String ConvResp) (audio : Except String String)
       (cache : List (String × String)),
      ytmp3Model "" conv audio cache =
        ⟨HttpOut.err 400 missingYtmp3Body, cache, false, false⟩) ∧
    (missingYtmp3Body.usage.isSome = true ∧ missingYtmp3Body.examples.isSome = true) ∧
    (∀ (link : String) (conv : Except String ConvResp) (audio : Except String String)
       (cache : List (String × String)),
      (link == "") = false →
      extract_youtube_id link = none →
      ytmp3Model link conv audio cache =
        ⟨HttpOut.err 400 (invalidLinkBody link), cache, false, false⟩) := by
  refine ⟨fun conv audio cache => rfl, ⟨rfl, rfl⟩, ?_⟩
  intro link conv audio cache hne hext
  unfold ytmp3Model
  simp only [hne, Bool.false_eq_true, if_false, hext]

/-- Witness for C7: a concrete unparseable link is rejected with the
invalid-link 400 before any network call. -/
theorem c7_client_error_before_network_witness :
    ytmp3Model "notaurl" (Except.ok {}) (Except.ok "") [] =
      ⟨HttpOut.err 400 (invalidLinkBody "notaurl"), [], false, false⟩ :=
  c7_client_error_before_network.2.2 "notaurl" (Except.ok {}) (Except.ok "") []
    (by decide) (by decide)

/-! ## C8: corrected — two error bodies lack the author field -/

/-- C8 counterexample: the 400 body returned for a concrete unparseable
link is a JSON error body that carries no `author` key, so not every error
body contains an author field. -/
theorem c8_missing_author_cex :
    (ytmp3Model "notaurl" (Except.ok {}) (Except.ok "") []).response =
      HttpOut.err 400 (invalidLinkBody "notaurl") ∧
    (invalidLinkBody "notaurl").message = "Invalid YouTube link" ∧
    (invalidLinkBody "notaurl").author = none := by
  refine ⟨by decide, rfl, rfl⟩

/-- C8 amended: every error body contains a message; every `/ymp3` error
body also carries the author field, while a `/ytmp3` error body carries it
exactly when it is neither the invalid-link 400 nor the conversion-failed
500; the `/cache` 404 detail is the bare string `File not found`. -/
theorem c8_error_author_fields :
    (∀ (vid vlink : Option String) (fetch : Except String FetchData)
       (polls : Nat → Except String ProgData) (s : Nat) (b : ErrBody),
      ymp3Model vid vlink fetch polls = HttpOut.err s b →
      b.author = some authorName) ∧
    (∀ (link : String) (conv : Except String ConvResp) (audio : Except String String)
       (cache : List (String × String)) (s : Nat) (b : ErrBody),
      (ytmp3Model link conv audio cache).response = HttpOut.err s b →
      (b.author = none ↔
        (b.message = "Invalid YouTube link" ∨ b.message = "Conversion failed"))) ∧
    (∀ (fname : String) (cache : List (String × String)),
      cacheLookup cache fname = none →
      getCachedFileModel fname cache = CacheGetOut.notFound "File not found") := by
  refine ⟨?_, ?_, ?_⟩
  · intro vid vlink fetch polls s b h
    unfold ymp3Model at h
    by_cases h1 : pyTruthyOpt (fullLink vid vlink) = true
    · rw [if_pos h1] at h
      cases fetch with
      | error e => cases h; rfl
      | ok d =>
        dsimp only at h
        by_cases h2 : pyTruthyOpt d.progress_url = true
        · rw [if_pos h2] at h
          cases hl : pollLoopE polls 0 maxAttempts with
          | terr e => rw [hl] at h; cases h; rfl
          | timeout => rw [hl] at h; cases h; rfl
          | ready url wc => rw [hl] at h; simp at h
        · rw [if_neg h2] at h; cases h; rfl
    · rw [if_neg h1] at h; cases h; rfl
  · intro link conv audio cache s b h
    unfold ytmp3Model at h
    by_cases h0 : (link == "") = true
    · rw [if_pos h0] at h
      cases h
      simp [missingYtmp3Body]
    · rw [if_neg h0] at h
      cases hext : extract_youtube_id link with
      | none => rw [hext] at h; cases h; simp [invalidLinkBody]
      | some vid =>
        rw [hext] at h
        cases conv with
        | error e => cases h; simp [internalBody, authorName]
        | ok r =>
          dsimp only at h
          by_cases hok : (r.status == some "ok" && pyTruthyOpt r.link) = true
          · rw [if_pos hok] at h
            cases hcache :
              cacheLookup cache (deriveFilenameS (r.title.getD "Unknown Title")) with
            | some content => rw [hcache] at h; simp at h
            | none =>
              rw [hcache] at h
              cases audio with
              | error e => cases h; simp [internalBody, authorName]
              | ok bytes => simp at h
          · rw [if_neg hok] at h
            cases h
            simp [convFailBody]
  · intro fname cache h
    unfold getCachedFileModel
    rw [h]

/-- Witness for C8 (amended): the invalid-link body of a concrete request
satisfies the author-absence characterization. -/
theorem c8_error_author_fields_witness :
    (invalidLinkBody "notaurl").author = none ↔
      ((invalidLinkBody "notaurl").message = "Invalid YouTube link" ∨
       (invalidLinkBody "notaurl").message = "Conversion failed") :=
  c8_error_author_fields.2.1 "notaurl" (Except.ok {}) (Except.ok "") [] 400
    (invalidLinkBody "notaurl") (by decide)

/-! ## C10: the cache reference is safe -/

/-- C10: every success response of `/ytmp3` references `/cache/` followed by
the derived filename, and that filename consists only of word characters,
hyphen, underscore and period (in particular no path separator), ends in
`.mp3`, and is at most 204 characters long. -/
theorem c10_cache_reference_safety :
    ∀ (link : String) (conv : Except String ConvResp) (audio : Except String String)
      (cache : List (String × String)) (resp : DownloadResponse),
      (ytmp3Model link conv audio cache).response = HttpOut.ok resp →
      ∃ t : String,
        resp.music = some ("/cache/" ++ deriveFilenameS t) ∧
        (∀ c, c ∈ (deriveFilenameS t).data → keepChar c = true) ∧
        (∀ c, c ∈ (deriveFilenameS t).data → c ≠ '/') ∧
        (deriveFilenameS t).data.length ≤ 204 ∧
        (∃ stem, (deriveFilenameS t).data = stem ++ mp3Ext) := by
  intro link conv audio cache resp h
  have props : ∀ t : String,
      (∀ c, c ∈ (deriveFilenameS t).data → keepChar c = true) ∧
      (∀ c, c ∈ (deriveFilenameS t).data → c ≠ '/') ∧
      (deriveFilenameS t).data.length ≤ 204 ∧
      (∃ stem, (deriveFilenameS t).data = stem ++ mp3Ext) := by
    intro t
    refine ⟨fun c hc => deriveFilename_keep hc,
      fun c hc => keep_ne_slash (deriveFilename_keep hc),
      deriveFilename_length t.data,
      ⟨(sanitizeTitle t.data).take 200, rfl⟩⟩
  unfold ytmp3Model at h
  by_cases h0 : (link == "") = true
  · rw [if_pos h0] at h; simp at h
  · rw [if_neg h0] at h
    cases hext : extract_youtube_id link with
    | none => rw [hext] at h; simp at h
    | some vid =>
      rw [hext] at h
      cases conv with
      | error e => simp at h
      | ok r =>
        dsimp only at h
        by_cases hok : (r.status == some "ok" && pyTruthyOpt r.link) = true
        · rw [if_pos hok] at h
          cases hcache :
            cacheLookup cache (deriveFilenameS (r.title.getD "Unknown Title")) with
          | some content =>
            rw [hcache] at h
            cases h
            exact ⟨r.title.getD "Unknown Title", rfl, props _⟩
          | none =>
            rw [hcache] at h
            cases audio with
            | error e => simp at h
            | ok bytes =>
              cases h
              exact ⟨r.title.getD "Unknown Title", rfl, props _⟩
        · rw [if_neg hok] at h; simp at h

/-- Witness for C10: the concrete cache-hit response references
`/cache/Song.mp3`, which satisfies all the safety properties. -/
theorem c10_cache_reference_safety_witness :
    ∃ t : String,
      (DownloadResponse.mk "Served from cache ✅" (some "Song") none
        (some "/cache/Song.mp3") none none none (some "ZIlALB1fQVE") none
        (some "mp3") none authorName).music = some ("/cache/" ++ deriveFilenameS t) ∧
      (∀ c, c ∈ (deriveFilenameS t).data → keepChar c = true) ∧
      (∀ c, c ∈ (deriveFilenameS t).data → c ≠ '/') ∧
      (deriveFilenameS t).data.length ≤ 204 ∧
      (∃ stem, (deriveFilenameS t).data = stem ++ mp3Ext) :=
  c10_cache_reference_safety "https://youtu.be/ZIlALB1fQVE"
    (Except.ok { status := some "ok", link := some "http://x", title := some "Song" })
    (Except.ok "bytes") [("Song.mp3", "old")]
    (DownloadResponse.mk "Served from cache ✅" (some "Song") none
      (some "/cache/Song.mp3") none none none (some "ZIlALB1fQVE") none
      (some "mp3") none authorName)
    (by decide)

end YMP3
